import Mathlib

/-!
Shallow embedding of `main.go` of the ryzen-stabilizator program.

The program is CLI glue around three feature packages (`c6`, `boosting`,
`aslr`) whose operations perform privileged hardware/sysctl I/O.  We model a
run of the program as a pure function from the process environment (processor
identity, effective uid, command-line flags, configuration-file contents, and
the results the three feature packages would return) to the pair of

  * the list of output lines the run prints, and
  * the trace of feature-package calls (enable / disable / status query)
    the run performs, in order.

Every call into the feature packages is recorded as an `Event`, so "performs
no feature mutation" is `trace = []` and ordering claims are statements about
the trace.  The outcomes of those external calls are inputs (an `Ops` record),
since their implementations live outside `src/main.go`.
-/

/-- Processor vendors as distinguished by the cpuid library; `sanityCheck`
only compares the detected vendor against `Vendor.amd`. -/
inductive Vendor where
  | amd
  | intel
  | via
  | transmeta
  | nsc
  | kvm
  | msvm
  | vmware
  | xenhvm
  | other
deriving DecidableEq, Repr

/-- The processor/process facts `sanityCheck` reads: `cpuid.CPU.VendorID`,
`cpuid.CPU.Family`, and `os.Geteuid()`. -/
structure SysEnv where
  vendorID : Vendor
  family : Nat
  euid : Int
deriving DecidableEq, Repr

/-- The `program` constant of main.go. -/
def program : String := "Ryzen Stabilizator Tabajara"

/-- The `copyright` constant of main.go. -/
def copyrightLine : String := "Copyright (C) 2018 Sergio Correia <sergio@correia.cc>"

/-- The `version` variable of main.go (default value). -/
def version : String := "unspecified/git version"

/-- The `amdZenFamily` constant of main.go: the family number for Zen processors. -/
def amdZenFamily : Nat := 0x17

/-- Embedding of `sanityCheck` (main.go lines 53-66): returns `some msg` for
the error returned by the Go function, `none` for a nil error.  The three
checks are tried in source order. -/
def sanityCheck (env : SysEnv) : Option String :=
  if env.vendorID ≠ Vendor.amd then
    some ("this is not an AMD processor")
  else if env.family ≠ amdZenFamily then
    some ("wrong family of AMD processors; expected 23 (17h), got " ++ toString env.family)
  else if env.euid ≠ 0 then
    some ("you need to be root to use this program")
  else
    none

/-- The three features the program toggles. -/
inductive Feature where
  | c6
  | boosting
  | aslr
deriving DecidableEq, Repr, BEq

/-- One call into a feature package: an enable mutation, a disable mutation,
or a status query (`Enabled()`). -/
inductive Event where
  | enableF : Feature → Event
  | disableF : Feature → Event
  | queryF : Feature → Event
deriving DecidableEq, Repr, BEq

/-- Whether an event mutates feature state (enable/disable, not a query). -/
def Event.isMutation : Event → Bool
  | .enableF _ => true
  | .disableF _ => true
  | .queryF _ => false

/-- The feature an event touches. -/
def Event.feature : Event → Feature
  | .enableF f => f
  | .disableF f => f
  | .queryF f => f

/-- Results the external feature packages would return on this run:
`none`/`Except.ok` model a nil Go error.  These are inputs of the model
because the packages' implementations are outside main.go. -/
structure Ops where
  c6EnableRes : Option String
  c6DisableRes : Option String
  boostingEnableRes : Option String
  boostingDisableRes : Option String
  aslrEnableRes : Option String
  aslrDisableRes : Option String
  c6EnabledRes : Except String Bool
  aslrEnabledRes : Except String Bool
  boostingEnabledRes : Except String Bool
deriving Repr

/-- Embedding of `disableC6` (main.go lines 69-77): output lines and trace.
The Go function prints the label and the outcome on one output line. -/
def disableC6 (ops : Ops) : List String × List Event :=
  match ops.c6DisableRes with
  | some err => (["Disabling C6 C-state:   " ++ ("oops: " ++ err)], [Event.disableF Feature.c6])
  | none => (["Disabling C6 C-state:   " ++ "SUCCESS"], [Event.disableF Feature.c6])

/-- Embedding of `enableC6` (main.go lines 80-88). -/
def enableC6 (ops : Ops) : List String × List Event :=
  match ops.c6EnableRes with
  | some err => (["Enabling C6 C-state:   " ++ ("oops: " ++ err)], [Event.enableF Feature.c6])
  | none => (["Enabling C6 C-state:   " ++ "SUCCESS"], [Event.enableF Feature.c6])

/-- Embedding of `disableBoosting` (main.go lines 91-99). -/
def disableBoosting (ops : Ops) : List String × List Event :=
  match ops.boostingDisableRes with
  | some err => (["Disabling processor boosting:   " ++ ("oops: " ++ err)], [Event.disableF Feature.boosting])
  | none => (["Disabling processor boosting:   " ++ "SUCCESS"], [Event.disableF Feature.boosting])

/-- Embedding of `enableBoosting` (main.go lines 102-110). -/
def enableBoosting (ops : Ops) : List String × List Event :=
  match ops.boostingEnableRes with
  | some err => (["Enabling processor boosting:   " ++ ("oops: " ++ err)], [Event.enableF Feature.boosting])
  | none => (["Enabling processor boosting:   " ++ "SUCCESS"], [Event.enableF Feature.boosting])

/-- Embedding of `disableASLR` (main.go lines 113-121). -/
def disableASLR (ops : Ops) : List String × List Event :=
  match ops.aslrDisableRes with
  | some err => (["Disabling address space layout randomization (ASLR):   " ++ ("oops: " ++ err)], [Event.disableF Feature.aslr])
  | none => (["Disabling address space layout randomization (ASLR):   " ++ "SUCCESS"], [Event.disableF Feature.aslr])

/-- Embedding of `enableASLR` (main.go lines 124-132). -/
def enableASLR (ops : Ops) : List String × List Event :=
  match ops.aslrEnableRes with
  | some err => (["Enabling address space layout randomization (ASLR):   " ++ ("oops: " ++ err)], [Event.enableF Feature.aslr])
  | none => (["Enabling address space layout randomization (ASLR):   " ++ "SUCCESS"], [Event.enableF Feature.aslr])

/-- The C6 status line computed by `showStatus` (main.go lines 137-145):
default DISABLED, overwritten to ENABLED on a true query, or to an error
report when the query returned an error. -/
def c6StatusLine (res : Except String Bool) : String :=
  match res with
  | Except.ok true => "C6 C-state is ENABLED."
  | Except.ok false => "C6 C-state is DISABLED."
  | Except.error e => "Error while obtaining status of C6 C-state: " ++ e

/-- The ASLR status line computed by `showStatus` (main.go lines 148-156). -/
def aslrStatusLine (res : Except String Bool) : String :=
  match res with
  | Except.ok true => "ASLR is ENABLED."
  | Except.ok false => "ASLR is DISABLED."
  | Except.error e => "Error while obtaining status of ASLR: " ++ e

/-- The boosting status line computed by `showStatus` (main.go lines 159-167). -/
def boostingStatusLine (res : Except String Bool) : String :=
  match res with
  | Except.ok true => "Processor boosting is ENABLED."
  | Except.ok false => "Processor boosting is DISABLED."
  | Except.error e => "Error while obtaining status of processor boosting: " ++ e

/-- Embedding of `showStatus` (main.go lines 136-169): queries the three
features in order C6, ASLR, boosting, printing one line per feature (the
leading empty line models the `\n` before the C6 status). -/
def showStatus (ops : Ops) : List String × List Event :=
  (["", c6StatusLine ops.c6EnabledRes, aslrStatusLine ops.aslrEnabledRes,
      boostingStatusLine ops.boostingEnabledRes],
   [Event.queryF Feature.c6, Event.queryF Feature.aslr, Event.queryF Feature.boosting])

/-- The `rsSettings` struct of main.go (lines 45-49): the three string fields
of the TOML configuration, with tags `c6`, `boosting`, `aslr`. -/
structure rsSettings where
  C6 : String
  Boosting : String
  ASLR : String
deriving DecidableEq, Repr

/-- Association-list lookup for configuration documents. -/
def lookupField (key : String) : List (String × String) → Option String
  | [] => none
  | (k, v) :: rest => if k = key then some v else lookupField key rest

/-- Models the struct-mapping step of `toml.Decode` into `rsSettings` (the
BurntSushi toml library, external to this repository): each tagged field
receives the value of its key when the parsed document has one, and keeps the
Go zero value `""` otherwise; document keys with no matching tag are ignored.
The parsed document is abstracted as a key/value table. -/
def decodeSettings (doc : List (String × String)) : rsSettings :=
  { C6 := (lookupField ("c6") doc).getD ("")
    Boosting := (lookupField ("boosting") doc).getD ("")
    ASLR := (lookupField ("aslr") doc).getD ("") }

/-- The reads of the configuration file performed on the config path, as the
run would observe them: the result of `ioutil.ReadFile` and, when that
succeeds, the result of parsing the contents with `toml.Decode` (abstracted
as a key/value document). -/
structure ConfigSource where
  readResult : Except String String
  parseResult : Except String (List (String × String))
deriving Repr

/-- The `%q` formatting of a path (escaping of special characters elided). -/
def quoteStr (s : String) : String := "\"" ++ s ++ "\""

/-- Models Go's `strings.ToLower` on the values compared here: ASCII case
folding, character by character (`Char.toLower` lowercases the ASCII
letters).  Only ASCII case variants can case-fold to `"enable"` or
`"disable"`, so this agrees with Go's Unicode folding on every comparison
the program makes. -/
def strToLower (s : String) : String := ⟨s.data.map Char.toLower⟩

/-- The `switch strings.ToLower(settings.Boosting)` statement of
`handleConfigurationFile` (main.go lines 188-193). -/
def configBoostingSwitch (settings : rsSettings) (ops : Ops) : List String × List Event :=
  match strToLower settings.Boosting with
  | "enable" => enableBoosting ops
  | "disable" => disableBoosting ops
  | _ => ([], [])

/-- The `switch strings.ToLower(settings.C6)` statement of
`handleConfigurationFile` (main.go lines 194-199). -/
def configC6Switch (settings : rsSettings) (ops : Ops) : List String × List Event :=
  match strToLower settings.C6 with
  | "enable" => enableC6 ops
  | "disable" => disableC6 ops
  | _ => ([], [])

/-- The `switch strings.ToLower(settings.ASLR)` statement of
`handleConfigurationFile` (main.go lines 200-205). -/
def configASLRSwitch (settings : rsSettings) (ops : Ops) : List String × List Event :=
  match strToLower settings.ASLR with
  | "enable" => enableASLR ops
  | "disable" => disableASLR ops
  | _ => ([], [])

/-- Embedding of `handleConfigurationFile` (main.go lines 171-209): on a read
error or a parse error it prints the error and returns without touching any
feature; otherwise it applies the boosting, C6 and ASLR switches in that
order and ends with `showStatus`. -/
def handleConfigurationFile (src : ConfigSource) (configFile : String) (ops : Ops) :
    List String × List Event :=
  match src.readResult with
  | Except.error e =>
      (["Error: unable to read contents of config file " ++ quoteStr configFile ++ ": " ++ e ++ "."], [])
  | Except.ok _buf =>
      match src.parseResult with
      | Except.error e =>
          (["Error: problem parsing config file " ++ quoteStr configFile ++ ": " ++ e ++ ".", ""], [])
      | Except.ok doc =>
          let settings := decodeSettings doc
          let b := configBoostingSwitch settings ops
          let c := configC6Switch settings ops
          let a := configASLRSwitch settings ops
          let st := showStatus ops
          (("Config file: " ++ quoteStr configFile) :: (b.1 ++ c.1 ++ a.1 ++ st.1),
           b.2 ++ c.2 ++ a.2 ++ st.2)

/-- The command-line flags of main.go (lines 220-226); `configFilePtr` is the
`--config` value, `""` when the flag is absent. -/
structure Flags where
  configFilePtr : String
  enableC6Ptr : Bool
  disableC6Ptr : Bool
  enableBoostingPtr : Bool
  disableBoostingPtr : Bool
  enableASLRPtr : Bool
  disableASLRPtr : Bool
deriving DecidableEq, Repr

/-- The `// C6.` switch of main (main.go lines 239-244): disable wins over
enable. -/
def flagC6Switch (flags : Flags) (ops : Ops) : List String × List Event :=
  if flags.disableC6Ptr then disableC6 ops
  else if flags.enableC6Ptr then enableC6 ops
  else ([], [])

/-- The `// Boosting.` switch of main (main.go lines 247-252). -/
def flagBoostingSwitch (flags : Flags) (ops : Ops) : List String × List Event :=
  if flags.disableBoostingPtr then disableBoosting ops
  else if flags.enableBoostingPtr then enableBoosting ops
  else ([], [])

/-- The `// ASLR.` switch of main (main.go lines 255-260). -/
def flagASLRSwitch (flags : Flags) (ops : Ops) : List String × List Event :=
  if flags.disableASLRPtr then disableASLR ops
  else if flags.enableASLRPtr then enableASLR ops
  else ([], [])

/-- The banner printed first by main: `"%s %s\n%s\n\n"` with program,
version, copyright. -/
def bannerLines : List String := [program ++ " " ++ version, copyrightLine, ""]

/-- Embedding of `main` (main.go lines 211-264): banner, sanity check (a
failure prints the error and returns), then either the configuration-file
path (when `--config` is non-empty) or the three flag switches in order C6,
boosting, ASLR followed by `showStatus`.  (Named `mainRun` because Lean
reserves `main` for an `IO` entry point.) -/
def mainRun (env : SysEnv) (flags : Flags) (src : ConfigSource) (ops : Ops) :
    List String × List Event :=
  match sanityCheck env with
  | some e => (bannerLines ++ ["Error: " ++ e ++ "."], [])
  | none =>
      if flags.configFilePtr ≠ "" then
        let r := handleConfigurationFile src flags.configFilePtr ops
        (bannerLines ++ r.1, r.2)
      else
        let c := flagC6Switch flags ops
        let b := flagBoostingSwitch flags ops
        let a := flagASLRSwitch flags ops
        let st := showStatus ops
        (bannerLines ++ c.1 ++ b.1 ++ a.1 ++ st.1, c.2 ++ b.2 ++ a.2 ++ st.2)

/-- Spec-side restatement of the per-field configuration dispatch: a value
case-folding to "enable" triggers the enable action for the field's feature,
"disable" the disable action, anything else no action. -/
def specFieldAction (f : Feature) (v : String) : List Event :=
  if strToLower v = "enable" then [Event.enableF f]
  else if strToLower v = "disable" then [Event.disableF f]
  else []

/-- The mutation events of a trace. -/
def mutations (t : List Event) : List Event :=
  t.filter Event.isMutation

/-- The mutation events of a trace that touch feature `f`. -/
def mutationsFor (f : Feature) (t : List Event) : List Event :=
  t.filter (fun e => e.isMutation && (e.feature == f))

/-! ## Basic trace and equation lemmas -/

theorem disableC6_trace (ops : Ops) : (disableC6 ops).2 = [Event.disableF Feature.c6] := by
  cases h : ops.c6DisableRes <;> simp [disableC6, h]

theorem enableC6_trace (ops : Ops) : (enableC6 ops).2 = [Event.enableF Feature.c6] := by
  cases h : ops.c6EnableRes <;> simp [enableC6, h]

theorem disableBoosting_trace (ops : Ops) :
    (disableBoosting ops).2 = [Event.disableF Feature.boosting] := by
  cases h : ops.boostingDisableRes <;> simp [disableBoosting, h]

theorem enableBoosting_trace (ops : Ops) :
    (enableBoosting ops).2 = [Event.enableF Feature.boosting] := by
  cases h : ops.boostingEnableRes <;> simp [enableBoosting, h]

theorem disableASLR_trace (ops : Ops) : (disableASLR ops).2 = [Event.disableF Feature.aslr] := by
  cases h : ops.aslrDisableRes <;> simp [disableASLR, h]

theorem enableASLR_trace (ops : Ops) : (enableASLR ops).2 = [Event.enableF Feature.aslr] := by
  cases h : ops.aslrEnableRes <;> simp [enableASLR, h]

theorem showStatus_trace (ops : Ops) :
    (showStatus ops).2 =
      [Event.queryF Feature.c6, Event.queryF Feature.aslr, Event.queryF Feature.boosting] := rfl

theorem configBoostingSwitch_trace (s : rsSettings) (ops : Ops) :
    (configBoostingSwitch s ops).2 = specFieldAction Feature.boosting s.Boosting := by
  unfold configBoostingSwitch specFieldAction
  split <;> simp_all [enableBoosting_trace, disableBoosting_trace]

theorem configC6Switch_trace (s : rsSettings) (ops : Ops) :
    (configC6Switch s ops).2 = specFieldAction Feature.c6 s.C6 := by
  unfold configC6Switch specFieldAction
  split <;> simp_all [enableC6_trace, disableC6_trace]

theorem configASLRSwitch_trace (s : rsSettings) (ops : Ops) :
    (configASLRSwitch s ops).2 = specFieldAction Feature.aslr s.ASLR := by
  unfold configASLRSwitch specFieldAction
  split <;> simp_all [enableASLR_trace, disableASLR_trace]

theorem flagC6Switch_trace (flags : Flags) (ops : Ops) :
    (flagC6Switch flags ops).2 =
      if flags.disableC6Ptr then [Event.disableF Feature.c6]
      else if flags.enableC6Ptr then [Event.enableF Feature.c6]
      else [] := by
  unfold flagC6Switch
  by_cases h1 : flags.disableC6Ptr <;> by_cases h2 : flags.enableC6Ptr <;>
    simp [h1, h2, disableC6_trace, enableC6_trace]

theorem flagBoostingSwitch_trace (flags : Flags) (ops : Ops) :
    (flagBoostingSwitch flags ops).2 =
      if flags.disableBoostingPtr then [Event.disableF Feature.boosting]
      else if flags.enableBoostingPtr then [Event.enableF Feature.boosting]
      else [] := by
  unfold flagBoostingSwitch
  by_cases h1 : flags.disableBoostingPtr <;> by_cases h2 : flags.enableBoostingPtr <;>
    simp [h1, h2, disableBoosting_trace, enableBoosting_trace]

theorem flagASLRSwitch_trace (flags : Flags) (ops : Ops) :
    (flagASLRSwitch flags ops).2 =
      if flags.disableASLRPtr then [Event.disableF Feature.aslr]
      else if flags.enableASLRPtr then [Event.enableF Feature.aslr]
      else [] := by
  unfold flagASLRSwitch
  by_cases h1 : flags.disableASLRPtr <;> by_cases h2 : flags.enableASLRPtr <;>
    simp [h1, h2, disableASLR_trace, enableASLR_trace]

theorem specFieldAction_cases (f : Feature) (v : String) :
    specFieldAction f v = [] ∨ specFieldAction f v = [Event.enableF f] ∨
      specFieldAction f v = [Event.disableF f] := by
  unfold specFieldAction
  by_cases h1 : strToLower v = "enable" <;> by_cases h2 : strToLower v = "disable" <;>
    simp [h1, h2]

theorem mainRun_gateFail (env : SysEnv) (flags : Flags) (src : ConfigSource) (ops : Ops)
    (e : String) (h : sanityCheck env = some e) :
    mainRun env flags src ops = (bannerLines ++ ["Error: " ++ e ++ "."], []) := by
  unfold mainRun; rw [h]

theorem mainRun_config (env : SysEnv) (flags : Flags) (src : ConfigSource) (ops : Ops)
    (h : sanityCheck env = none) (hc : flags.configFilePtr ≠ "") :
    mainRun env flags src ops =
      (bannerLines ++ (handleConfigurationFile src flags.configFilePtr ops).1,
       (handleConfigurationFile src flags.configFilePtr ops).2) := by
  unfold mainRun; rw [h]; simp [hc]

theorem mainRun_flags (env : SysEnv) (flags : Flags) (src : ConfigSource) (ops : Ops)
    (h : sanityCheck env = none) (hc : flags.configFilePtr = "") :
    mainRun env flags src ops =
      (bannerLines ++ (flagC6Switch flags ops).1 ++ (flagBoostingSwitch flags ops).1
         ++ (flagASLRSwitch flags ops).1 ++ (showStatus ops).1,
       (flagC6Switch flags ops).2 ++ (flagBoostingSwitch flags ops).2
         ++ (flagASLRSwitch flags ops).2 ++ (showStatus ops).2) := by
  unfold mainRun; rw [h]; simp [hc]

theorem handleConfig_ok (src : ConfigSource) (cfg : String) (ops : Ops)
    (buf : String) (doc : List (String × String))
    (hr : src.readResult = Except.ok buf) (hp : src.parseResult = Except.ok doc) :
    handleConfigurationFile src cfg ops =
      (("Config file: " ++ quoteStr cfg)
         :: ((configBoostingSwitch (decodeSettings doc) ops).1
              ++ (configC6Switch (decodeSettings doc) ops).1
              ++ (configASLRSwitch (decodeSettings doc) ops).1
              ++ (showStatus ops).1),
       (configBoostingSwitch (decodeSettings doc) ops).2
         ++ (configC6Switch (decodeSettings doc) ops).2
         ++ (configASLRSwitch (decodeSettings doc) ops).2
         ++ (showStatus ops).2) := by
  unfold handleConfigurationFile; rw [hr, hp]

theorem mainRun_flags_trace (env : SysEnv) (flags : Flags) (src : ConfigSource) (ops : Ops)
    (h : sanityCheck env = none) (hc : flags.configFilePtr = "") :
    (mainRun env flags src ops).2 =
      (if flags.disableC6Ptr then [Event.disableF Feature.c6]
       else if flags.enableC6Ptr then [Event.enableF Feature.c6] else [])
      ++ (if flags.disableBoostingPtr then [Event.disableF Feature.boosting]
          else if flags.enableBoostingPtr then [Event.enableF Feature.boosting] else [])
      ++ (if flags.disableASLRPtr then [Event.disableF Feature.aslr]
          else if flags.enableASLRPtr then [Event.enableF Feature.aslr] else [])
      ++ [Event.queryF Feature.c6, Event.queryF Feature.aslr, Event.queryF Feature.boosting] := by
  rw [mainRun_flags env flags src ops h hc]
  simp [flagC6Switch_trace, flagBoostingSwitch_trace, flagASLRSwitch_trace, showStatus_trace]

theorem mainRun_config_trace (env : SysEnv) (flags : Flags) (src : ConfigSource) (ops : Ops)
    (buf : String) (doc : List (String × String))
    (h : sanityCheck env = none) (hc : flags.configFilePtr ≠ "")
    (hr : src.readResult = Except.ok buf) (hp : src.parseResult = Except.ok doc) :
    (mainRun env flags src ops).2 =
      specFieldAction Feature.boosting (decodeSettings doc).Boosting
      ++ specFieldAction Feature.c6 (decodeSettings doc).C6
      ++ specFieldAction Feature.aslr (decodeSettings doc).ASLR
      ++ [Event.queryF Feature.c6, Event.queryF Feature.aslr, Event.queryF Feature.boosting] := by
  rw [mainRun_config env flags src ops h hc]
  rw [handleConfig_ok src flags.configFilePtr ops buf doc hr hp]
  simp [configBoostingSwitch_trace, configC6Switch_trace, configASLRSwitch_trace, showStatus_trace]

/-! ## Concrete run inputs used by witnesses and counterexamples -/

/-- A host passing all three sanity checks: AMD vendor, Zen family, root. -/
def envOK : SysEnv := { vendorID := Vendor.amd, family := 0x17, euid := 0 }

/-- A non-AMD host (fails the vendor check). -/
def envIntel : SysEnv := { vendorID := Vendor.intel, family := 6, euid := 0 }

/-- No flags at all. -/
def flagsNone : Flags :=
  { configFilePtr := "", enableC6Ptr := false, disableC6Ptr := false,
    enableBoostingPtr := false, disableBoostingPtr := false,
    enableASLRPtr := false, disableASLRPtr := false }

/-- Both `--disable-c6` and `--disable-boosting` (and, for the flag-conflict
scenario, also both enable flags for those features). -/
def flagsBothDisable : Flags :=
  { configFilePtr := "", enableC6Ptr := true, disableC6Ptr := true,
    enableBoostingPtr := true, disableBoostingPtr := true,
    enableASLRPtr := false, disableASLRPtr := false }

/-- A run where every feature-package operation succeeds and every status
query answers `true`. -/
def opsAllOK : Ops :=
  { c6EnableRes := none, c6DisableRes := none,
    boostingEnableRes := none, boostingDisableRes := none,
    aslrEnableRes := none, aslrDisableRes := none,
    c6EnabledRes := Except.ok true, aslrEnabledRes := Except.ok true,
    boostingEnabledRes := Except.ok true }

/-- A run where every feature-package operation and every status query
fails with error text "fail". -/
def opsAllFail : Ops :=
  { c6EnableRes := some ("fail"), c6DisableRes := some ("fail"),
    boostingEnableRes := some ("fail"), boostingDisableRes := some ("fail"),
    aslrEnableRes := some ("fail"), aslrDisableRes := some ("fail"),
    c6EnabledRes := Except.error ("fail"), aslrEnabledRes := Except.error ("fail"),
    boostingEnabledRes := Except.error ("fail") }

/-- A configuration file that cannot be read. -/
def srcMissing : ConfigSource :=
  { readResult := Except.error ("no such file or directory"),
    parseResult := Except.error ("unreached") }

/-- A configuration file that reads but does not parse. -/
def srcBadParse : ConfigSource :=
  { readResult := Except.ok ("c6 = ["),
    parseResult := Except.error ("unexpected end of table") }

/-- The spec's precedence scenario: a configuration document with
`boosting = "enable"` and `c6 = "disable"`. -/
def docBoostC6 : List (String × String) := [("boosting", "enable"), ("c6", "disable")]

/-- A readable, parseable configuration file holding `docBoostC6`. -/
def srcBoostC6 : ConfigSource :=
  { readResult := Except.ok ("boosting = \"enable\"\nc6 = \"disable\"\n"),
    parseResult := Except.ok docBoostC6 }

/-! ## C1 -/

/-- C1: `sanityCheck` fails with the wrong-vendor error whenever the vendor
is not AMD; fails with the wrong-family error whenever the vendor is AMD but
the family is not 0x17, and that message embeds both the expected family
(23, i.e. 17h) and the actual family; fails with the insufficient-privilege
error whenever vendor and family are right but the effective uid is not 0;
and succeeds exactly when all three conditions hold. -/
theorem C1_sanityCheck_gate (env : SysEnv) :
    (env.vendorID ≠ Vendor.amd →
      sanityCheck env = some ("this is not an AMD processor")) ∧
    (env.vendorID = Vendor.amd → env.family ≠ amdZenFamily →
      ∃ msg, sanityCheck env = some msg ∧
        ("23 (17h)").data <:+: msg.data ∧ (toString env.family).data <:+: msg.data) ∧
    (env.vendorID = Vendor.amd → env.family = amdZenFamily → env.euid ≠ 0 →
      sanityCheck env = some ("you need to be root to use this program")) ∧
    (sanityCheck env = none ↔
      env.vendorID = Vendor.amd ∧ env.family = amdZenFamily ∧ env.euid = 0) := by
  refine ⟨?_, ?_, ?_, ?_⟩
  · intro h; simp [sanityCheck, h]
  · intro h1 h2
    refine ⟨"wrong family of AMD processors; expected 23 (17h), got " ++ toString env.family,
      ?_, ?_, ?_⟩
    · simp [sanityCheck, h1, h2]
    · refine ⟨("wrong family of AMD processors; expected ").data,
        (", got ").data ++ (toString env.family).data, ?_⟩
      simp [String.data_append, ← List.append_assoc]
    · refine ⟨("wrong family of AMD processors; expected 23 (17h), got ").data, [], ?_⟩
      simp [String.data_append]
  · intro h1 h2 h3; simp [sanityCheck, h1, h2, h3]
  · constructor
    · intro h
      by_cases h1 : env.vendorID = Vendor.amd
      · by_cases h2 : env.family = amdZenFamily
        · by_cases h3 : env.euid = 0
          · exact ⟨h1, h2, h3⟩
          · simp [sanityCheck, h1, h2, h3] at h
        · simp [sanityCheck, h1, h2] at h
      · simp [sanityCheck, h1] at h
    · rintro ⟨h1, h2, h3⟩; simp [sanityCheck, h1, h2, h3]

/-- Witness for C1 at concrete inputs: an Intel host, an AMD family-25 host,
an AMD Zen host with uid 1000, and an AMD Zen host running as root. -/
theorem C1_sanityCheck_gate_witness :
    sanityCheck envIntel = some ("this is not an AMD processor") ∧
    (∃ msg, sanityCheck { vendorID := Vendor.amd, family := 25, euid := 0 } = some msg ∧
      ("23 (17h)").data <:+: msg.data ∧ (toString (25 : Nat)).data <:+: msg.data) ∧
    sanityCheck { vendorID := Vendor.amd, family := 0x17, euid := 1000 } =
      some ("you need to be root to use this program") ∧
    sanityCheck envOK = none := by
  refine ⟨?_, ?_, ?_, ?_⟩
  · exact (C1_sanityCheck_gate envIntel).1 (by decide)
  · exact (C1_sanityCheck_gate { vendorID := Vendor.amd, family := 25, euid := 0 }).2.1
      rfl (by decide)
  · exact (C1_sanityCheck_gate { vendorID := Vendor.amd, family := 0x17, euid := 1000 }).2.2.1
      rfl rfl (by decide)
  · exact (C1_sanityCheck_gate envOK).2.2.2.mpr ⟨rfl, rfl, rfl⟩

/-! ## C2 -/

/-- C2: whenever `sanityCheck` returns an error, the run performs no
feature-package call at all (no enable, disable, or status query), and the
output is just the banner followed by the user-facing error line. -/
theorem C2_gate_failure_aborts (env : SysEnv) (flags : Flags) (src : ConfigSource)
    (ops : Ops) (e : String) (h : sanityCheck env = some e) :
    (mainRun env flags src ops).2 = [] ∧
    (mainRun env flags src ops).1 = bannerLines ++ ["Error: " ++ e ++ "."] := by
  rw [mainRun_gateFail env flags src ops e h]
  exact ⟨rfl, rfl⟩

/-- Witness for C2: on an Intel host the run performs no feature-package
call and prints only the banner and the error line. -/
theorem C2_gate_failure_aborts_witness :
    sanityCheck envIntel = some ("this is not an AMD processor") ∧
    (mainRun envIntel flagsBothDisable srcBoostC6 opsAllOK).2 = [] ∧
    (mainRun envIntel flagsBothDisable srcBoostC6 opsAllOK).1 =
      bannerLines ++ ["Error: " ++ "this is not an AMD processor" ++ "."] :=
  ⟨by decide,
   C2_gate_failure_aborts envIntel flagsBothDisable srcBoostC6 opsAllOK
     ("this is not an AMD processor") (by decide)⟩

/-! ## C3 -/

/-- A config-path run with individual flags also set (they must be ignored). -/
def flagsCfgDisableBoosting : Flags :=
  { configFilePtr := "/etc/ryzen-stabilizator.toml", enableC6Ptr := false, disableC6Ptr := false,
    enableBoostingPtr := false, disableBoostingPtr := true,
    enableASLRPtr := false, disableASLRPtr := false }

/-- A config-path run with no individual flags. -/
def flagsCfgOnly : Flags :=
  { configFilePtr := "/etc/ryzen-stabilizator.toml", enableC6Ptr := false, disableC6Ptr := false,
    enableBoostingPtr := false, disableBoostingPtr := false,
    enableASLRPtr := false, disableASLRPtr := false }

/-- Counterexample to C3: on the flag-driven path with `--disable-c6` and
`--disable-boosting` both set, the C6 mutation happens before the boosting
mutation, not Boost before C6 as the claim states. -/
theorem C3_flag_order_counterexample :
    mutations ((mainRun envOK flagsBothDisable srcMissing opsAllOK).2) =
      [Event.disableF Feature.c6, Event.disableF Feature.boosting] ∧
    mutations ((mainRun envOK flagsBothDisable srcMissing opsAllOK).2) ≠
      [Event.disableF Feature.boosting, Event.disableF Feature.c6] := by
  constructor <;> decide

/-- C3 (amended): on the configuration-file path the mutations are applied
in the order Boost, then C6, then ASLR; on the flag-driven path in the order
C6, then Boost, then ASLR; on both paths the status report (the three status
queries) comes after all mutations. -/
theorem C3_mutation_order (env : SysEnv) (flags : Flags) (src : ConfigSource) (ops : Ops)
    (buf : String) (doc : List (String × String)) (hgate : sanityCheck env = none) :
    (flags.configFilePtr ≠ "" → src.readResult = Except.ok buf →
      src.parseResult = Except.ok doc →
      (mainRun env flags src ops).2 =
        mutationsFor Feature.boosting ((mainRun env flags src ops).2)
        ++ mutationsFor Feature.c6 ((mainRun env flags src ops).2)
        ++ mutationsFor Feature.aslr ((mainRun env flags src ops).2)
        ++ [Event.queryF Feature.c6, Event.queryF Feature.aslr, Event.queryF Feature.boosting]) ∧
    (flags.configFilePtr = "" →
      (mainRun env flags src ops).2 =
        mutationsFor Feature.c6 ((mainRun env flags src ops).2)
        ++ mutationsFor Feature.boosting ((mainRun env flags src ops).2)
        ++ mutationsFor Feature.aslr ((mainRun env flags src ops).2)
        ++ [Event.queryF Feature.c6, Event.queryF Feature.aslr, Event.queryF Feature.boosting]) := by
  refine ⟨?_, ?_⟩
  · intro hc hr hp
    rw [mainRun_config_trace env flags src ops buf doc hgate hc hr hp]
    rcases specFieldAction_cases Feature.boosting (decodeSettings doc).Boosting with h1 | h1 | h1 <;>
      rcases specFieldAction_cases Feature.c6 (decodeSettings doc).C6 with h2 | h2 | h2 <;>
        rcases specFieldAction_cases Feature.aslr (decodeSettings doc).ASLR with h3 | h3 | h3 <;>
          rw [h1, h2, h3] <;> decide
  · intro hc
    rw [mainRun_flags_trace env flags src ops hgate hc]
    cases flags.disableC6Ptr <;> cases flags.enableC6Ptr <;>
      cases flags.disableBoostingPtr <;> cases flags.enableBoostingPtr <;>
        cases flags.disableASLRPtr <;> cases flags.enableASLRPtr <;> decide

/-- Witness for the amended C3 on both paths at concrete inputs. -/
theorem C3_mutation_order_witness :
    ((mainRun envOK flagsCfgOnly srcBoostC6 opsAllOK).2 =
      mutationsFor Feature.boosting ((mainRun envOK flagsCfgOnly srcBoostC6 opsAllOK).2)
      ++ mutationsFor Feature.c6 ((mainRun envOK flagsCfgOnly srcBoostC6 opsAllOK).2)
      ++ mutationsFor Feature.aslr ((mainRun envOK flagsCfgOnly srcBoostC6 opsAllOK).2)
      ++ [Event.queryF Feature.c6, Event.queryF Feature.aslr, Event.queryF Feature.boosting]) ∧
    ((mainRun envOK flagsBothDisable srcMissing opsAllOK).2 =
      mutationsFor Feature.c6 ((mainRun envOK flagsBothDisable srcMissing opsAllOK).2)
      ++ mutationsFor Feature.boosting ((mainRun envOK flagsBothDisable srcMissing opsAllOK).2)
      ++ mutationsFor Feature.aslr ((mainRun envOK flagsBothDisable srcMissing opsAllOK).2)
      ++ [Event.queryF Feature.c6, Event.queryF Feature.aslr, Event.queryF Feature.boosting]) :=
  ⟨(C3_mutation_order envOK flagsCfgOnly srcBoostC6 opsAllOK
      ("boosting = \"enable\"\nc6 = \"disable\"\n") docBoostC6 (by decide)).1
      (by decide) rfl rfl,
   (C3_mutation_order envOK flagsBothDisable srcMissing opsAllOK ("") [] (by decide)).2 rfl⟩

/-! ## C4 -/

/-- The three per-feature status lines `showStatus` reports for a run. -/
def statusLines (ops : Ops) : List String :=
  [c6StatusLine ops.c6EnabledRes, aslrStatusLine ops.aslrEnabledRes,
   boostingStatusLine ops.boostingEnabledRes]

/-- Counterexample to C4: a run that fails the gate (non-AMD vendor) prints
only the banner and the error line — none of the three status lines appears,
so not every run ends with the status report. -/
theorem C4_gate_failure_no_status_counterexample :
    (mainRun envIntel flagsNone srcMissing opsAllOK).1 =
      [program ++ " " ++ version, copyrightLine, "", "Error: this is not an AMD processor."] ∧
    c6StatusLine opsAllOK.c6EnabledRes ∉ (mainRun envIntel flagsNone srcMissing opsAllOK).1 ∧
    aslrStatusLine opsAllOK.aslrEnabledRes ∉ (mainRun envIntel flagsNone srcMissing opsAllOK).1 ∧
    boostingStatusLine opsAllOK.boostingEnabledRes ∉
      (mainRun envIntel flagsNone srcMissing opsAllOK).1 := by
  refine ⟨by decide, by decide, by decide, by decide⟩

/-- C4 (amended): every run that passes the gate and — on the config path —
reads and parses the configuration file successfully ends with the three
status lines for C6, ASLR and Boost, even when nothing was toggled and even
when a toggle or a status query failed; runs failing the gate or the config
read/parse end with an error message instead. -/
theorem C4_status_report (env : SysEnv) (flags : Flags) (src : ConfigSource) (ops : Ops)
    (buf : String) (doc : List (String × String)) (hgate : sanityCheck env = none) :
    (flags.configFilePtr = "" → statusLines ops <:+ (mainRun env flags src ops).1) ∧
    (flags.configFilePtr ≠ "" → src.readResult = Except.ok buf →
      src.parseResult = Except.ok doc →
      statusLines ops <:+ (mainRun env flags src ops).1) := by
  refine ⟨?_, ?_⟩
  · intro hc
    rw [mainRun_flags env flags src ops hgate hc]
    refine ⟨bannerLines ++ (flagC6Switch flags ops).1 ++ (flagBoostingSwitch flags ops).1
      ++ (flagASLRSwitch flags ops).1 ++ [""], ?_⟩
    simp [showStatus, statusLines]
  · intro hc hr hp
    rw [mainRun_config env flags src ops hgate hc,
      handleConfig_ok src flags.configFilePtr ops buf doc hr hp]
    refine ⟨bannerLines ++ (("Config file: " ++ quoteStr flags.configFilePtr)
      :: ((configBoostingSwitch (decodeSettings doc) ops).1
          ++ (configC6Switch (decodeSettings doc) ops).1
          ++ (configASLRSwitch (decodeSettings doc) ops).1 ++ [""])), ?_⟩
    simp [showStatus, statusLines]

/-- Witness for the amended C4: the status lines close a flag-path run in
which every toggle and every query fails, and a config-path run. -/
theorem C4_status_report_witness :
    statusLines opsAllFail <:+ (mainRun envOK flagsNone srcMissing opsAllFail).1 ∧
    statusLines opsAllOK <:+ (mainRun envOK flagsCfgOnly srcBoostC6 opsAllOK).1 :=
  ⟨(C4_status_report envOK flagsNone srcMissing opsAllFail ("") [] (by decide)).1 rfl,
   (C4_status_report envOK flagsCfgOnly srcBoostC6 opsAllOK
      ("boosting = \"enable\"\nc6 = \"disable\"\n") docBoostC6 (by decide)).2
      (by decide) rfl rfl⟩

/-! ## C5 -/

/-- C5: when `--config` names a non-empty path, the six individual
enable/disable flags have no influence: two flag records agreeing on the
config path produce identical output and identical traces, whatever their
toggle flags are. -/
theorem C5_config_overrides_flags (env : SysEnv) (f1 f2 : Flags) (src : ConfigSource)
    (ops : Ops) (hcfg : f1.configFilePtr = f2.configFilePtr)
    (hne : f1.configFilePtr ≠ "") :
    mainRun env f1 src ops = mainRun env f2 src ops := by
  unfold mainRun
  cases h : sanityCheck env with
  | some e => rfl
  | none =>
      rw [hcfg] at hne
      rw [hcfg]
      simp [hne]

/-- Witness for C5: the spec's precedence scenario — config
`boosting = "enable"`, `c6 = "disable"` with a simultaneous
`--disable-boosting` flag behaves exactly like the same config with no
flags, and its mutations are: enable boosting, disable C6, ASLR untouched. -/
theorem C5_config_overrides_flags_witness :
    flagsCfgDisableBoosting.configFilePtr = flagsCfgOnly.configFilePtr ∧
    flagsCfgDisableBoosting.configFilePtr ≠ "" ∧
    mainRun envOK flagsCfgDisableBoosting srcBoostC6 opsAllOK =
      mainRun envOK flagsCfgOnly srcBoostC6 opsAllOK ∧
    mutations ((mainRun envOK flagsCfgDisableBoosting srcBoostC6 opsAllOK).2) =
      [Event.enableF Feature.boosting, Event.disableF Feature.c6] :=
  ⟨rfl, by decide,
   C5_config_overrides_flags envOK flagsCfgDisableBoosting flagsCfgOnly srcBoostC6 opsAllOK
     rfl (by decide),
   by decide⟩

/-! ## C6 -/

/-- C6: on a successfully read and parsed configuration, each of the three
fields dispatches exactly per `specFieldAction` — a value case-folding to
"enable" triggers that feature's enable call, "disable" its disable call,
anything else (including the absent-field default "") no call — in field
order boosting, c6, aslr, followed by the status queries; and a document key
other than `c6`, `boosting`, `aslr` does not affect the decoded settings. -/
theorem C6_config_field_semantics (src : ConfigSource) (cfg : String) (ops : Ops)
    (buf : String) (doc : List (String × String)) (key v : String)
    (hr : src.readResult = Except.ok buf) (hp : src.parseResult = Except.ok doc) :
    ((handleConfigurationFile src cfg ops).2 =
      specFieldAction Feature.boosting (decodeSettings doc).Boosting
      ++ specFieldAction Feature.c6 (decodeSettings doc).C6
      ++ specFieldAction Feature.aslr (decodeSettings doc).ASLR
      ++ [Event.queryF Feature.c6, Event.queryF Feature.aslr, Event.queryF Feature.boosting]) ∧
    (key ≠ "c6" → key ≠ "boosting" → key ≠ "aslr" →
      decodeSettings ((key, v) :: doc) = decodeSettings doc) := by
  constructor
  · rw [handleConfig_ok src cfg ops buf doc hr hp]
    simp [configBoostingSwitch_trace, configC6Switch_trace, configASLRSwitch_trace,
      showStatus_trace]
  · intro h1 h2 h3
    simp [decodeSettings, lookupField, h1, h2, h3]

/-- Witness for C6: the concrete document with an unknown `frequency` key
decodes the same with or without it, the field dispatch matches
`specFieldAction` on the concrete run, and an upper-case value still
dispatches after case-folding. -/
theorem C6_config_field_semantics_witness :
    ((handleConfigurationFile srcBoostC6 ("/etc/ryzen-stabilizator.toml") opsAllOK).2 =
      specFieldAction Feature.boosting (decodeSettings docBoostC6).Boosting
      ++ specFieldAction Feature.c6 (decodeSettings docBoostC6).C6
      ++ specFieldAction Feature.aslr (decodeSettings docBoostC6).ASLR
      ++ [Event.queryF Feature.c6, Event.queryF Feature.aslr, Event.queryF Feature.boosting]) ∧
    decodeSettings (("frequency", "3600") :: docBoostC6) = decodeSettings docBoostC6 ∧
    (configC6Switch { C6 := "DISABLE", Boosting := "", ASLR := "" } opsAllOK).2 =
      [Event.disableF Feature.c6] :=
  ⟨(C6_config_field_semantics srcBoostC6 ("/etc/ryzen-stabilizator.toml") opsAllOK
      ("boosting = \"enable\"\nc6 = \"disable\"\n") docBoostC6 ("frequency") ("3600")
      rfl rfl).1,
   (C6_config_field_semantics srcBoostC6 ("/etc/ryzen-stabilizator.toml") opsAllOK
      ("boosting = \"enable\"\nc6 = \"disable\"\n") docBoostC6 ("frequency") ("3600")
      rfl rfl).2 (by decide) (by decide) (by decide),
   by decide⟩

/-! ## C7 -/

/-- C7: every attempted mutating action prints exactly one outcome line — the
action label followed by `SUCCESS` when the package call returns no error, or
by `oops: <error>` when it returns one — for each of the six actions. -/
theorem C7_action_outcome_lines (ops : Ops) :
    ((enableC6 ops).1.length = 1 ∧
     (ops.c6EnableRes = none → (enableC6 ops).1 = ["Enabling C6 C-state:   SUCCESS"]) ∧
     (∀ e, ops.c6EnableRes = some e →
       (enableC6 ops).1 = ["Enabling C6 C-state:   oops: " ++ e])) ∧
    ((disableC6 ops).1.length = 1 ∧
     (ops.c6DisableRes = none → (disableC6 ops).1 = ["Disabling C6 C-state:   SUCCESS"]) ∧
     (∀ e, ops.c6DisableRes = some e →
       (disableC6 ops).1 = ["Disabling C6 C-state:   oops: " ++ e])) ∧
    ((enableBoosting ops).1.length = 1 ∧
     (ops.boostingEnableRes = none →
       (enableBoosting ops).1 = ["Enabling processor boosting:   SUCCESS"]) ∧
     (∀ e, ops.boostingEnableRes = some e →
       (enableBoosting ops).1 = ["Enabling processor boosting:   oops: " ++ e])) ∧
    ((disableBoosting ops).1.length = 1 ∧
     (ops.boostingDisableRes = none →
       (disableBoosting ops).1 = ["Disabling processor boosting:   SUCCESS"]) ∧
     (∀ e, ops.boostingDisableRes = some e →
       (disableBoosting ops).1 = ["Disabling processor boosting:   oops: " ++ e])) ∧
    ((enableASLR ops).1.length = 1 ∧
     (ops.aslrEnableRes = none →
       (enableASLR ops).1 =
         ["Enabling address space layout randomization (ASLR):   SUCCESS"]) ∧
     (∀ e, ops.aslrEnableRes = some e →
       (enableASLR ops).1 =
         ["Enabling address space layout randomization (ASLR):   oops: " ++ e])) ∧
    ((disableASLR ops).1.length = 1 ∧
     (ops.aslrDisableRes = none →
       (disableASLR ops).1 =
         ["Disabling address space layout randomization (ASLR):   SUCCESS"]) ∧
     (∀ e, ops.aslrDisableRes = some e →
       (disableASLR ops).1 =
         ["Disabling address space layout randomization (ASLR):   oops: " ++ e])) := by
  refine ⟨⟨?_, ?_, ?_⟩, ⟨?_, ?_, ?_⟩, ⟨?_, ?_, ?_⟩, ⟨?_, ?_, ?_⟩, ⟨?_, ?_, ?_⟩, ⟨?_, ?_, ?_⟩⟩
  · cases h : ops.c6EnableRes <;> simp [enableC6, h]
  · intro h; unfold enableC6; rw [h]; rfl
  · intro e h; unfold enableC6; rw [h]; rfl
  · cases h : ops.c6DisableRes <;> simp [disableC6, h]
  · intro h; unfold disableC6; rw [h]; rfl
  · intro e h; unfold disableC6; rw [h]; rfl
  · cases h : ops.boostingEnableRes <;> simp [enableBoosting, h]
  · intro h; unfold enableBoosting; rw [h]; rfl
  · intro e h; unfold enableBoosting; rw [h]; rfl
  · cases h : ops.boostingDisableRes <;> simp [disableBoosting, h]
  · intro h; unfold disableBoosting; rw [h]; rfl
  · intro e h; unfold disableBoosting; rw [h]; rfl
  · cases h : ops.aslrEnableRes <;> simp [enableASLR, h]
  · intro h; unfold enableASLR; rw [h]; rfl
  · intro e h; unfold enableASLR; rw [h]; rfl
  · cases h : ops.aslrDisableRes <;> simp [disableASLR, h]
  · intro h; unfold disableASLR; rw [h]; rfl
  · intro e h; unfold disableASLR; rw [h]; rfl

/-- Witness for C7: the six SUCCESS lines on an all-success run and the six
oops lines on an all-failure run. -/
theorem C7_action_outcome_lines_witness :
    (enableC6 opsAllOK).1 = ["Enabling C6 C-state:   SUCCESS"] ∧
    (disableC6 opsAllOK).1 = ["Disabling C6 C-state:   SUCCESS"] ∧
    (enableBoosting opsAllOK).1 = ["Enabling processor boosting:   SUCCESS"] ∧
    (disableBoosting opsAllOK).1 = ["Disabling processor boosting:   SUCCESS"] ∧
    (enableASLR opsAllOK).1 =
      ["Enabling address space layout randomization (ASLR):   SUCCESS"] ∧
    (disableASLR opsAllOK).1 =
      ["Disabling address space layout randomization (ASLR):   SUCCESS"] ∧
    (enableC6 opsAllFail).1 = ["Enabling C6 C-state:   oops: fail"] ∧
    (disableC6 opsAllFail).1 = ["Disabling C6 C-state:   oops: fail"] ∧
    (enableBoosting opsAllFail).1 = ["Enabling processor boosting:   oops: fail"] ∧
    (disableBoosting opsAllFail).1 = ["Disabling processor boosting:   oops: fail"] ∧
    (enableASLR opsAllFail).1 =
      ["Enabling address space layout randomization (ASLR):   oops: fail"] ∧
    (disableASLR opsAllFail).1 =
      ["Disabling address space layout randomization (ASLR):   oops: fail"] :=
  ⟨(C7_action_outcome_lines opsAllOK).1.2.1 rfl,
   (C7_action_outcome_lines opsAllOK).2.1.2.1 rfl,
   (C7_action_outcome_lines opsAllOK).2.2.1.2.1 rfl,
   (C7_action_outcome_lines opsAllOK).2.2.2.1.2.1 rfl,
   (C7_action_outcome_lines opsAllOK).2.2.2.2.1.2.1 rfl,
   (C7_action_outcome_lines opsAllOK).2.2.2.2.2.2.1 rfl,
   (C7_action_outcome_lines opsAllFail).1.2.2 ("fail") rfl,
   (C7_action_outcome_lines opsAllFail).2.1.2.2 ("fail") rfl,
   (C7_action_outcome_lines opsAllFail).2.2.1.2.2 ("fail") rfl,
   (C7_action_outcome_lines opsAllFail).2.2.2.1.2.2 ("fail") rfl,
   (C7_action_outcome_lines opsAllFail).2.2.2.2.1.2.2 ("fail") rfl,
   (C7_action_outcome_lines opsAllFail).2.2.2.2.2.2.2 ("fail") rfl⟩

/-! ## C8 -/

/-- C8: `showStatus` always prints its four lines; a failing status query
degrades only that feature's line to the error report, while the other
features' lines are still printed and still determined by their own query
results — for every combination of query outcomes. -/
theorem C8_status_query_degrades (ops : Ops) (e1 e2 e3 : String) :
    (showStatus ops).1.length = 4 ∧
    (ops.c6EnabledRes = Except.error e1 →
      (showStatus ops).1 = ["", "Error while obtaining status of C6 C-state: " ++ e1,
        aslrStatusLine ops.aslrEnabledRes, boostingStatusLine ops.boostingEnabledRes]) ∧
    (ops.aslrEnabledRes = Except.error e2 →
      (showStatus ops).1 = ["", c6StatusLine ops.c6EnabledRes,
        "Error while obtaining status of ASLR: " ++ e2,
        boostingStatusLine ops.boostingEnabledRes]) ∧
    (ops.boostingEnabledRes = Except.error e3 →
      (showStatus ops).1 = ["", c6StatusLine ops.c6EnabledRes,
        aslrStatusLine ops.aslrEnabledRes,
        "Error while obtaining status of processor boosting: " ++ e3]) := by
  refine ⟨rfl, ?_, ?_, ?_⟩
  · intro h; simp [showStatus, c6StatusLine, h]
  · intro h; simp [showStatus, aslrStatusLine, h]
  · intro h; simp [showStatus, boostingStatusLine, h]

/-- Witness for C8: with all three queries failing, all four lines are still
printed and each feature's line is its own error report. -/
theorem C8_status_query_degrades_witness :
    (showStatus opsAllFail).1.length = 4 ∧
    (showStatus opsAllFail).1 =
      ["", "Error while obtaining status of C6 C-state: fail",
       "Error while obtaining status of ASLR: fail",
       "Error while obtaining status of processor boosting: fail"] :=
  ⟨(C8_status_query_degrades opsAllFail ("fail") ("fail") ("fail")).1,
   (C8_status_query_degrades opsAllFail ("fail") ("fail") ("fail")).2.1 rfl⟩

/-! ## C9 -/

/-- All six enable/disable flags set simultaneously, no config file. -/
def flagsAllSix : Flags :=
  { configFilePtr := "", enableC6Ptr := true, disableC6Ptr := true,
    enableBoostingPtr := true, disableBoostingPtr := true,
    enableASLRPtr := true, disableASLRPtr := true }

/-- C9: on the flag path, when a feature's disable flag and enable flag are
both set, only the disable call happens for that feature — its enable call
never appears in the trace. -/
theorem C9_disable_flag_wins (env : SysEnv) (flags : Flags) (src : ConfigSource) (ops : Ops)
    (hgate : sanityCheck env = none) (hcfg : flags.configFilePtr = "") :
    (flags.disableC6Ptr = true → flags.enableC6Ptr = true →
      Event.disableF Feature.c6 ∈ (mainRun env flags src ops).2 ∧
      Event.enableF Feature.c6 ∉ (mainRun env flags src ops).2) ∧
    (flags.disableBoostingPtr = true → flags.enableBoostingPtr = true →
      Event.disableF Feature.boosting ∈ (mainRun env flags src ops).2 ∧
      Event.enableF Feature.boosting ∉ (mainRun env flags src ops).2) ∧
    (flags.disableASLRPtr = true → flags.enableASLRPtr = true →
      Event.disableF Feature.aslr ∈ (mainRun env flags src ops).2 ∧
      Event.enableF Feature.aslr ∉ (mainRun env flags src ops).2) := by
  refine ⟨?_, ?_, ?_⟩
  · intro h1 h2
    rw [mainRun_flags_trace env flags src ops hgate hcfg, h1, h2]
    cases flags.disableBoostingPtr <;> cases flags.enableBoostingPtr <;>
      cases flags.disableASLRPtr <;> cases flags.enableASLRPtr <;> simp
  · intro h1 h2
    rw [mainRun_flags_trace env flags src ops hgate hcfg, h1, h2]
    cases flags.disableC6Ptr <;> cases flags.enableC6Ptr <;>
      cases flags.disableASLRPtr <;> cases flags.enableASLRPtr <;> simp
  · intro h1 h2
    rw [mainRun_flags_trace env flags src ops hgate hcfg, h1, h2]
    cases flags.disableC6Ptr <;> cases flags.enableC6Ptr <;>
      cases flags.disableBoostingPtr <;> cases flags.enableBoostingPtr <;> simp

/-- Witness for C9: with all six flags set, each feature is disabled and
never enabled. -/
theorem C9_disable_flag_wins_witness :
    (Event.disableF Feature.c6 ∈ (mainRun envOK flagsAllSix srcMissing opsAllOK).2 ∧
     Event.enableF Feature.c6 ∉ (mainRun envOK flagsAllSix srcMissing opsAllOK).2) ∧
    (Event.disableF Feature.boosting ∈ (mainRun envOK flagsAllSix srcMissing opsAllOK).2 ∧
     Event.enableF Feature.boosting ∉ (mainRun envOK flagsAllSix srcMissing opsAllOK).2) ∧
    (Event.disableF Feature.aslr ∈ (mainRun envOK flagsAllSix srcMissing opsAllOK).2 ∧
     Event.enableF Feature.aslr ∉ (mainRun envOK flagsAllSix srcMissing opsAllOK).2) :=
  ⟨(C9_disable_flag_wins envOK flagsAllSix srcMissing opsAllOK (by decide) rfl).1 rfl rfl,
   (C9_disable_flag_wins envOK flagsAllSix srcMissing opsAllOK (by decide) rfl).2.1 rfl rfl,
   (C9_disable_flag_wins envOK flagsAllSix srcMissing opsAllOK (by decide) rfl).2.2 rfl rfl⟩

/-! ## C10 -/

/-- C10: on the config path, a read failure or a parse failure of the
configuration file means the run performs no feature-package call at all and
ends right after the banner and the corresponding error message. -/
theorem C10_config_error_aborts (env : SysEnv) (flags : Flags) (src : ConfigSource)
    (ops : Ops) (hgate : sanityCheck env = none) (hcfg : flags.configFilePtr ≠ "") :
    (∀ e, src.readResult = Except.error e →
      (mainRun env flags src ops).2 = [] ∧
      (mainRun env flags src ops).1 = bannerLines
        ++ ["Error: unable to read contents of config file "
             ++ quoteStr flags.configFilePtr ++ ": " ++ e ++ "."]) ∧
    (∀ buf e, src.readResult = Except.ok buf → src.parseResult = Except.error e →
      (mainRun env flags src ops).2 = [] ∧
      (mainRun env flags src ops).1 = bannerLines
        ++ ["Error: problem parsing config file " ++ quoteStr flags.configFilePtr
             ++ ": " ++ e ++ ".", ""]) := by
  constructor
  · intro e hr
    rw [mainRun_config env flags src ops hgate hcfg]
    unfold handleConfigurationFile
    rw [hr]
    exact ⟨rfl, rfl⟩
  · intro buf e hr hp
    rw [mainRun_config env flags src ops hgate hcfg]
    unfold handleConfigurationFile
    rw [hr, hp]
    exact ⟨rfl, rfl⟩

/-- Witness for C10: an unreadable file and an unparseable file each abort
with no feature-package call. -/
theorem C10_config_error_aborts_witness :
    ((mainRun envOK flagsCfgOnly srcMissing opsAllOK).2 = [] ∧
     (mainRun envOK flagsCfgOnly srcMissing opsAllOK).1 = bannerLines
       ++ ["Error: unable to read contents of config file "
            ++ quoteStr flagsCfgOnly.configFilePtr ++ ": "
            ++ "no such file or directory" ++ "."]) ∧
    ((mainRun envOK flagsCfgOnly srcBadParse opsAllOK).2 = [] ∧
     (mainRun envOK flagsCfgOnly srcBadParse opsAllOK).1 = bannerLines
       ++ ["Error: problem parsing config file " ++ quoteStr flagsCfgOnly.configFilePtr
            ++ ": " ++ "unexpected end of table" ++ ".", ""]) :=
  ⟨(C10_config_error_aborts envOK flagsCfgOnly srcMissing opsAllOK (by decide) (by decide)).1
     ("no such file or directory") rfl,
   (C10_config_error_aborts envOK flagsCfgOnly srcBadParse opsAllOK (by decide) (by decide)).2
     ("c6 = [") ("unexpected end of table") rfl rfl⟩
